import Mathlib

/-!
Verification of the filter/KPI pipeline of the Sri Lanka infrastructure
dashboard (`app.py`).  The dashboard loads a CSV into a table `df`, lets the
user choose a sector, an indicator (or several), and a year range, and derives
from that selection a filtered row subset and KPI scalars.  We embed the rows
of the table and the pipeline operations as Lean functions over lists.
-/

namespace InfraDash

/-- One row of the source table `df` (schema of the cleaned CSV).
Fields follow the spec data model; `yoyChangePercent` is nullable
(its first year in a series is missing, rendered as the string N/A). -/
structure IndicatorRecord where
  country : String
  year : Int
  indicatorName : String
  value : Rat
  indicatorCode : String
  sector : String
  yoyChangePercent : Option Rat
  growthLabel : String
deriving DecidableEq, Repr

/-- The row predicate of the single-indicator filter
`df[(df.Sector == s) & (df.IndicatorName == i) & df.Year.between(y0, y1)]`. -/
def rowMatches (sector ind : String) (y0 y1 : Int) (r : IndicatorRecord) : Bool :=
  r.sector == sector && r.indicatorName == ind && (decide (y0 ≤ r.year) && decide (r.year ≤ y1))

/-- `filtered` (app.py lines 70-74): boolean-mask selection over `df`,
keeping source row order. -/
def filtered (df : List IndicatorRecord) (sector ind : String) (y0 y1 : Int) :
    List IndicatorRecord :=
  df.filter (rowMatches sector ind y0 y1)

/-- The row predicate of the multi-indicator filter: `Indicator Name` membership
via `.isin(compare_inds)` instead of equality. -/
def multiMatches (sector : String) (inds : List String) (y0 y1 : Int)
    (r : IndicatorRecord) : Bool :=
  r.sector == sector && inds.contains r.indicatorName
    && (decide (y0 ≤ r.year) && decide (r.year ≤ y1))

/-- `multi_df` (app.py lines 141-145): the multi-indicator comparison subset. -/
def multi_df (df : List IndicatorRecord) (sector : String) (inds : List String)
    (y0 y1 : Int) : List IndicatorRecord :=
  df.filter (multiMatches sector inds y0 y1)

/-- Year-descending comparison used by `sort_values("Year", ascending=False)`. -/
def yearGE (a b : IndicatorRecord) : Prop := b.year ≤ a.year

/-- Year-ascending comparison, for stating order properties of trend rows. -/
def yearLE (a b : IndicatorRecord) : Prop := a.year ≤ b.year

instance : DecidableRel yearGE := fun a b => inferInstanceAs (Decidable (b.year ≤ a.year))

instance : DecidableRel yearLE := fun a b => inferInstanceAs (Decidable (a.year ≤ b.year))

instance : IsTotal IndicatorRecord yearGE :=
  ⟨fun a b => (le_total b.year a.year).imp id id⟩

instance : IsTrans IndicatorRecord yearGE :=
  ⟨fun _ _ _ hab hbc => le_trans hbc hab⟩

instance : IsTotal IndicatorRecord yearLE :=
  ⟨fun a b => (le_total a.year b.year).imp id id⟩

instance : IsTrans IndicatorRecord yearLE :=
  ⟨fun _ _ _ hab hbc => le_trans hab hbc⟩

/-- `sort_values("Year", ascending=False)`: sort rows by year, descending. -/
def sortYearDesc (l : List IndicatorRecord) : List IndicatorRecord :=
  List.insertionSort yearGE l

/-- `latest` (app.py line 78): head of the year-descending sort of the filtered
rows.  Pandas `.iloc[0]` raises an unhandled `IndexError` on an empty frame;
we model the partiality with `Option`, `none` being the crash case. -/
def latest (df : List IndicatorRecord) (sector ind : String) (y0 y1 : Int) :
    Option IndicatorRecord :=
  (sortYearDesc (filtered df sector ind y0 y1)).head?

/-- The KPI triple displayed by the metric cards (app.py lines 80-82). -/
structure KPIResult where
  year : Int
  value : Rat
  yoyChangePercent : Option Rat
deriving DecidableEq, Repr

/-- `latestKPI`: the year / latest value / YoY change triple of the `latest`
row, when one exists. -/
def latestKPI (df : List IndicatorRecord) (sector ind : String) (y0 y1 : Int) :
    Option KPIResult :=
  (latest df sector ind y0 y1).map fun r => ⟨r.year, r.value, r.yoyChangePercent⟩

/-- Rows handed to the trend line chart (app.py line 95): exactly the
`filtered` subset, in its existing order. -/
def figTrendRows (df : List IndicatorRecord) (sector ind : String) (y0 y1 : Int) :
    List IndicatorRecord :=
  filtered df sector ind y0 y1

/-- `distribution` (app.py lines 111-118, the box-plot data
`df[df.IndicatorName == selected_indicator]`): all rows of the full dataset
for the indicator.  The active year range `(y0, y1)` is in scope in the
dashboard but deliberately unused here. -/
def distribution (df : List IndicatorRecord) (ind : String) (y0 y1 : Int) :
    List IndicatorRecord :=
  df.filter fun r => r.indicatorName == ind

/-- Modelled from the spec: operation `deltaKPI` is described in the spec
(section 4.1) but has no counterpart in `app.py`; we define it from the
spec words.  For one indicator, take the two most recent rows by year within
the filtered range; with at least two rows compute
`(curr.value - prev.value) / prev.value * 100`, guarded to `0` when
`prev.value = 0`; with fewer than two rows emit nothing. -/
def deltaKPI (df : List IndicatorRecord) (sector ind : String) (y0 y1 : Int) :
    Option Rat :=
  match sortYearDesc (filtered df sector ind y0 y1) with
  | curr :: prev :: _ =>
      some (if prev.value = 0 then 0 else (curr.value - prev.value) / prev.value * 100)
  | _ => none

/-- Outcome of one rendering section of the dashboard script. -/
inductive RenderOutcome where
  | rendered
  | skipped
  | crashed
deriving DecidableEq, Repr

/-- The KPI metric-card section (app.py lines 77-82): it reads
`filtered.sort_values("Year", ascending=False).iloc[0]` with no emptiness
guard, so an empty selection raises an unhandled `IndexError`. -/
def kpiSectionOutcome (df : List IndicatorRecord) (sector ind : String)
    (y0 y1 : Int) : RenderOutcome :=
  match latest df sector ind y0 y1 with
  | none => RenderOutcome.crashed
  | some _ => RenderOutcome.rendered

/-- The multi-indicator comparison section (app.py lines 146-161):
guarded by `if not multi_df.empty:`, so an empty comparison subset is
silently skipped. -/
def multiComparisonOutcome (df : List IndicatorRecord) (sector : String)
    (inds : List String) (y0 y1 : Int) : RenderOutcome :=
  if multi_df df sector inds y0 y1 = [] then RenderOutcome.skipped
  else RenderOutcome.rendered

/-- The dashboard state: the record table loaded once at script start. -/
structure DashState where
  df : List IndicatorRecord
deriving DecidableEq

/-- The outputs derived by one run of the dashboard page for a selection. -/
structure PipelineOutputs where
  filteredRows : List IndicatorRecord
  latestKPIOut : Option KPIResult
  distributionRows : List IndicatorRecord
  multiRows : List IndicatorRecord
deriving DecidableEq

/-- One full run of the Dashboard page over the loaded state: computes the
filtered subset, the KPI triple, the box-plot data and the comparison subset.
The script never assigns `df`, so the state passes through unchanged. -/
def runDashboard (s : DashState) (sector ind : String) (inds : List String)
    (y0 y1 : Int) : PipelineOutputs × DashState :=
  (⟨filtered s.df sector ind y0 y1,
    latestKPI s.df sector ind y0 y1,
    distribution s.df ind y0 y1,
    multi_df s.df sector inds y0 y1⟩, s)

/-- C3: filter is sound and complete — a row is in the filtered subset exactly
when it is a source row whose sector matches, whose indicator name is among
the selected ones, and whose year lies in the selected range; the
single-indicator filter is the singleton instance of the same predicate. -/
theorem filter_sound_complete (df : List IndicatorRecord) (sector ind : String)
    (inds : List String) (y0 y1 : Int) :
    (∀ r : IndicatorRecord,
      r ∈ multi_df df sector inds y0 y1 ↔
        r ∈ df ∧ r.sector = sector ∧ r.indicatorName ∈ inds ∧
          y0 ≤ r.year ∧ r.year ≤ y1) ∧
    filtered df sector ind y0 y1 = multi_df df sector [ind] y0 y1 := by
  constructor
  · intro r
    simp [multi_df, multiMatches, List.mem_filter, and_assoc]
  · refine List.filter_congr fun r _ => ?_
    rw [Bool.eq_iff_iff]
    simp [rowMatches, multiMatches]

/-- C5: the distribution (box-plot) data ignores the active year range — it is
the same subset for any two year ranges, and its size is the count of the
indicator rows across the entire dataset. -/
theorem distribution_ignores_year_range (df : List IndicatorRecord) (ind : String)
    (y0 y1 u0 u1 : Int) :
    distribution df ind y0 y1 = distribution df ind u0 u1 ∧
    (distribution df ind y0 y1).length
      = df.countP (fun r => r.indicatorName == ind) := by
  exact ⟨rfl, (List.countP_eq_length_filter _ _).symm⟩

/-- C6: the filter is idempotent, both in its single-indicator form and in its
multi-indicator form. -/
theorem filter_idempotent (df : List IndicatorRecord) (sector ind : String)
    (inds : List String) (y0 y1 : Int) :
    filtered (filtered df sector ind y0 y1) sector ind y0 y1
      = filtered df sector ind y0 y1 ∧
    multi_df (multi_df df sector inds y0 y1) sector inds y0 y1
      = multi_df df sector inds y0 y1 := by
  constructor
  · simp [filtered, List.filter_filter]
  · simp [multi_df, List.filter_filter]

/-- C8: the pipeline is deterministic — every operation is a pure function of
the record table and the selection, so two runs on identical inputs produce
identical outputs. -/
theorem pipeline_deterministic (df1 df2 : List IndicatorRecord)
    (s1 s2 i1 i2 : String) (inds1 inds2 : List String) (a1 a2 b1 b2 : Int)
    (hdf : df1 = df2) (hs : s1 = s2) (hi : i1 = i2) (hinds : inds1 = inds2)
    (ha : a1 = a2) (hb : b1 = b2) :
    filtered df1 s1 i1 a1 b1 = filtered df2 s2 i2 a2 b2 ∧
    latestKPI df1 s1 i1 a1 b1 = latestKPI df2 s2 i2 a2 b2 ∧
    deltaKPI df1 s1 i1 a1 b1 = deltaKPI df2 s2 i2 a2 b2 ∧
    distribution df1 i1 a1 b1 = distribution df2 i2 a2 b2 ∧
    multi_df df1 s1 inds1 a1 b1 = multi_df df2 s2 inds2 a2 b2 := by
  subst hdf hs hi hinds ha hb
  exact ⟨rfl, rfl, rfl, rfl, rfl⟩

/-- Witness for C8 at a concrete selection. -/
theorem pipeline_deterministic_witness :
    filtered [] "Energy" "X" 2000 2023 = filtered [] "Energy" "X" 2000 2023 ∧
    latestKPI [] "Energy" "X" 2000 2023 = latestKPI [] "Energy" "X" 2000 2023 ∧
    deltaKPI [] "Energy" "X" 2000 2023 = deltaKPI [] "Energy" "X" 2000 2023 ∧
    distribution [] "X" 2000 2023 = distribution [] "X" 2000 2023 ∧
    multi_df [] "Energy" ["X"] 2000 2023 = multi_df [] "Energy" ["X"] 2000 2023 :=
  pipeline_deterministic [] [] "Energy" "Energy" "X" "X" ["X"] ["X"]
    2000 2000 2023 2023 rfl rfl rfl rfl rfl rfl

/-- C9: frame property — a full dashboard run returns the loaded record table
unchanged, and every derived row set is a subsequence of that table (the
pipeline only reads the data and produces derived subsets and scalars). -/
theorem pipeline_frame (s : DashState) (sector ind : String)
    (inds : List String) (y0 y1 : Int) :
    (runDashboard s sector ind inds y0 y1).2 = s ∧
    ((runDashboard s sector ind inds y0 y1).1.filteredRows).Sublist s.df ∧
    ((runDashboard s sector ind inds y0 y1).1.distributionRows).Sublist s.df ∧
    ((runDashboard s sector ind inds y0 y1).1.multiRows).Sublist s.df :=
  ⟨rfl, List.filter_sublist _, List.filter_sublist _, List.filter_sublist _⟩

/-- A concrete record with the fields the pipeline predicates inspect. -/
def mkRec (year : Int) (value : Rat) (ind : String) : IndicatorRecord :=
  { country := "Sri Lanka", year := year, indicatorName := ind, value := value,
    indicatorCode := "IND01", sector := "Energy", yoyChangePercent := none,
    growthLabel := "Stable" }

/-- C4: on a non-empty filtered set, `latestKPI` exposes the year, value and
nullable YoY change of a filtered row whose year is maximal among the
filtered rows (the uniqueness invariant then makes that row unique). -/
theorem latestKPI_max_year (df : List IndicatorRecord) (sector ind : String)
    (y0 y1 : Int) (hne : filtered df sector ind y0 y1 ≠ []) :
    ∃ r : IndicatorRecord, r ∈ filtered df sector ind y0 y1 ∧
      latestKPI df sector ind y0 y1
        = some ⟨r.year, r.value, r.yoyChangePercent⟩ ∧
      ∀ rp ∈ filtered df sector ind y0 y1, rp.year ≤ r.year := by
  set l := filtered df sector ind y0 y1 with hl
  have hperm : List.Perm (List.insertionSort yearGE l) l :=
    List.perm_insertionSort yearGE l
  have hsorted : List.Sorted yearGE (List.insertionSort yearGE l) :=
    List.sorted_insertionSort yearGE l
  cases hs : List.insertionSort yearGE l with
  | nil =>
    rw [hs] at hperm
    exact absurd hperm.symm.eq_nil hne
  | cons h t =>
    refine ⟨h, ?_, ?_, ?_⟩
    · have hmem : h ∈ List.insertionSort yearGE l := by
        rw [hs]; exact List.mem_cons_self h t
      exact (List.mem_insertionSort yearGE).mp hmem
    · have heq : latestKPI df sector ind y0 y1
          = (List.insertionSort yearGE l).head?.map
              (fun r => (⟨r.year, r.value, r.yoyChangePercent⟩ : KPIResult)) := rfl
      rw [heq, hs]
      rfl
    · intro rp hrp
      have hmem : rp ∈ List.insertionSort yearGE l :=
        (List.mem_insertionSort yearGE).mpr hrp
      rw [hs] at hmem hsorted
      rcases List.mem_cons.mp hmem with he | ht
      · exact he ▸ le_refl _
      · exact List.rel_of_sorted_cons hsorted rp ht

/-- Witness for C4: a two-row dataset, both rows in range; the KPI comes from
the 2023 row, whose year bounds both rows. -/
theorem latestKPI_max_year_witness :
    ∃ r : IndicatorRecord,
      r ∈ filtered [mkRec 2022 50 "A", mkRec 2023 55 "A"] "Energy" "A" 2000 2023 ∧
      latestKPI [mkRec 2022 50 "A", mkRec 2023 55 "A"] "Energy" "A" 2000 2023
        = some ⟨r.year, r.value, r.yoyChangePercent⟩ ∧
      ∀ rp ∈ filtered [mkRec 2022 50 "A", mkRec 2023 55 "A"] "Energy" "A" 2000 2023,
        rp.year ≤ r.year :=
  latestKPI_max_year [mkRec 2022 50 "A", mkRec 2023 55 "A"] "Energy" "A" 2000 2023
    (by decide)

/-- A dataset whose two matching rows appear in year-descending source order. -/
def dfDesc : List IndicatorRecord := [mkRec 2020 3 "A", mkRec 2019 4 "A"]

/-- Counterexample to C7: the trend chart receives the filtered rows exactly in
source order (app.py line 95 passes `filtered` to the renderer unsorted), so
when the source lists year 2020 before 2019 the trend rows are not sorted by
year ascending. -/
theorem trend_rows_not_sorted :
    figTrendRows dfDesc "Energy" "A" 2000 2023 = dfDesc ∧
    ¬ List.Sorted yearLE (figTrendRows dfDesc "Energy" "A" 2000 2023) := by
  refine ⟨rfl, ?_⟩
  decide

/-- C7 amended: filter output preserves relative source order (it is a
subsequence of the source); the trend chart receives exactly the filtered rows
in that order — year-ascending whenever the source itself is — and the latest
value lookup sorts by year descending. -/
theorem filter_order_amended (df : List IndicatorRecord) (sector ind : String)
    (y0 y1 : Int) :
    (filtered df sector ind y0 y1).Sublist df ∧
    figTrendRows df sector ind y0 y1 = filtered df sector ind y0 y1 ∧
    (List.Sorted yearLE df → List.Sorted yearLE (figTrendRows df sector ind y0 y1)) ∧
    List.Sorted yearGE (sortYearDesc (filtered df sector ind y0 y1)) :=
  ⟨List.filter_sublist _, rfl,
   fun h => List.Pairwise.sublist (List.filter_sublist _) h,
   List.sorted_insertionSort yearGE _⟩

/-- A dataset whose rows appear in year-ascending source order. -/
def dfAsc : List IndicatorRecord := [mkRec 2019 4 "A", mkRec 2020 3 "A"]

/-- Witness for C7 amended, on a year-ascending source table. -/
theorem filter_order_amended_witness :
    (filtered dfAsc "Energy" "A" 2000 2023).Sublist dfAsc ∧
    List.Sorted yearLE (figTrendRows dfAsc "Energy" "A" 2000 2023) ∧
    List.Sorted yearGE (sortYearDesc (filtered dfAsc "Energy" "A" 2000 2023)) :=
  ⟨(filter_order_amended dfAsc "Energy" "A" 2000 2023).1,
   (filter_order_amended dfAsc "Energy" "A" 2000 2023).2.2.1 (by decide),
   (filter_order_amended dfAsc "Energy" "A" 2000 2023).2.2.2⟩

/-- C10: an empty multi-indicator subset silently skips the comparison charts
(no chart, no error), while the single-indicator KPI path has no emptiness
guard and crashes on an empty filtered set. -/
theorem empty_guard_contrast (df : List IndicatorRecord) (sector ind : String)
    (inds : List String) (y0 y1 : Int)
    (hm : multi_df df sector inds y0 y1 = [])
    (hf : filtered df sector ind y0 y1 = []) :
    multiComparisonOutcome df sector inds y0 y1 = RenderOutcome.skipped ∧
    multiComparisonOutcome df sector inds y0 y1 ≠ RenderOutcome.crashed ∧
    kpiSectionOutcome df sector ind y0 y1 = RenderOutcome.crashed := by
  refine ⟨?_, ?_, ?_⟩
  · simp [multiComparisonOutcome, hm]
  · simp [multiComparisonOutcome, hm]
  · simp [kpiSectionOutcome, latest, sortYearDesc, hf, List.insertionSort]

/-- Witness for C10 at the empty table, where both subsets are empty. -/
theorem empty_guard_contrast_witness :
    multiComparisonOutcome [] "Energy" ["A"] 2000 2023 = RenderOutcome.skipped ∧
    multiComparisonOutcome [] "Energy" ["A"] 2000 2023 ≠ RenderOutcome.crashed ∧
    kpiSectionOutcome [] "Energy" "A" 2000 2023 = RenderOutcome.crashed :=
  empty_guard_contrast [] "Energy" "A" ["A"] 2000 2023 rfl rfl

/-- A dataset whose only row for the selected indicator is from 1990, outside
the selected 2000-2023 range. -/
def dfEarly : List IndicatorRecord := [mkRec 1990 5 "A"]

/-- C1: when the chosen year range excludes all data for the chosen sector and
indicator, the filtered set is empty and the KPI section evaluates
`filtered.sort_values(...).iloc[0]` unguarded: the script run aborts with an
untyped IndexError instead of signalling a handled EmptySelection. -/
theorem latest_empty_selection_crash :
    filtered dfEarly "Energy" "A" 2000 2023 = [] ∧
    latest dfEarly "Energy" "A" 2000 2023 = none ∧
    kpiSectionOutcome dfEarly "Energy" "A" 2000 2023 = RenderOutcome.crashed :=
  ⟨rfl, rfl, rfl⟩

/-- A table with two in-range rows for indicator A holding values `va` (2020)
then `vb` (2021), one out-of-range row (1990) and one row of another
indicator. -/
def twoRowDf (va vb : Rat) : List IndicatorRecord :=
  [mkRec 1990 7 "A", mkRec 2020 va "A", mkRec 2021 vb "A", mkRec 2021 9 "B"]

/-- C2: `deltaKPI` on the two most recent in-range rows holding `va` then `vb`
returns `(vb - va) / va * 100` guarded to `0` when `va = 0`; with fewer than
two rows it returns nothing; values `100` then `110` give `10`. -/
theorem deltaKPI_spec_cases (va vb : Rat) :
    deltaKPI (twoRowDf va vb) "Energy" "A" 2000 2023
      = some (if va = 0 then 0 else (vb - va) / va * 100) ∧
    deltaKPI [mkRec 2020 va "A"] "Energy" "A" 2000 2023 = none ∧
    deltaKPI [] "Energy" "A" 2000 2023 = none ∧
    deltaKPI (twoRowDf 100 110) "Energy" "A" 2000 2023 = some 10 ∧
    deltaKPI (twoRowDf 0 5) "Energy" "A" 2000 2023 = some 0 := by
  have key : ∀ ua ub : Rat, deltaKPI (twoRowDf ua ub) "Energy" "A" 2000 2023
      = some (if ua = 0 then 0 else (ub - ua) / ua * 100) := fun ua ub => rfl
  refine ⟨key va vb, rfl, rfl, ?_, ?_⟩
  · rw [key]
    norm_num
  · rw [key]
    norm_num

end InfraDash
